import Mathlib

/-!
Verification of the BIDS demo batch converter (`00_Scripts/BIDS_demo.ipynb`).

The notebook's executable logic is embedded shallowly:
strings are Lean `String`s (lists of characters), the Python
expression pipeline for the subject ID is translated operation by
operation, the pandas channel table is a list of records, and the
task JSON document is a list of key/value pairs.
-/

set_option autoImplicit false

namespace BIDSDemo

/-! ### Subject-ID extractor

Source (both copy loops, the tsv loop and the json loop):
`subID = pname.replace('_', '\t').replace('-', '\t').split()[0][1:].rjust(2, '0')`
-/

/-- Python `str.split()` whitespace: space, tab, newline, carriage return,
vertical tab, form feed. -/
def pyIsSpace (c : Char) : Bool :=
  c == ' ' || c == '\t' || c == '\n' || c == '\r' || c == Char.ofNat 11 || c == Char.ofNat 12

/-- Python `str.replace(old, new)` for single-character arguments. -/
def pyReplaceChar (old new : Char) (s : List Char) : List Char :=
  s.map (fun c => if c == old then new else c)

/-- Split a character list at every character satisfying `p`, keeping empty
groups (the groups between two adjacent separators). -/
def splitP (p : Char → Bool) : List Char → List (List Char)
  | [] => [[]]
  | c :: cs =>
    let r := splitP p cs
    if p c then [] :: r
    else (c :: r.headD []) :: r.tail

/-- Python `str.split()` with no argument: split on whitespace runs and
discard empty groups. -/
def pySplit (s : List Char) : List (List Char) :=
  (splitP pyIsSpace s).filter (fun g => g ≠ [])

/-- Python `str.rjust(w, fill)`: left-pad to width `w`. -/
def pyRjust (w : Nat) (fill : Char) (s : List Char) : List Char :=
  List.replicate (w - s.length) fill ++ s

/-- The notebook's subject-ID extraction applied to a raw folder name.
Returns `none` when Python raises `IndexError` (the `[0]` on an empty
token list). -/
def subID (pname : String) : Option String :=
  match pySplit (pyReplaceChar '-' '\t' (pyReplaceChar '_' '\t' pname.toList)) with
  | [] => none
  | t :: _ => some (String.mk (pyRjust 2 '0' (t.drop 1)))

/-- The first whitespace-delimited token after separator replacement. -/
def firstToken (pname : String) : Option (List Char) :=
  (pySplit (pyReplaceChar '-' '\t' (pyReplaceChar '_' '\t' pname.toList))).head?

/-- A character the extraction treats as a token separator: underscore,
hyphen, or Python whitespace. -/
def isSep (c : Char) : Bool :=
  c == '_' || c == '-' || pyIsSpace c

/-- The combined effect of the two `replace` calls on one character. -/
def replAll (c : Char) : Char :=
  if c == '_' then '\t' else if c == '-' then '\t' else c

theorem replace_replace_eq_map (s : List Char) :
    pyReplaceChar '-' '\t' (pyReplaceChar '_' '\t' s) = s.map replAll := by
  simp only [pyReplaceChar, List.map_map]
  apply List.map_congr_left
  intro c _
  simp only [Function.comp_apply, replAll]
  by_cases h1 : c = '_'
  · simp [h1]
  · by_cases h2 : c = '-' <;> simp [h1, h2]

theorem pyIsSpace_replAll (c : Char) : pyIsSpace (replAll c) = isSep c := by
  by_cases h1 : c = '_'
  · simp [replAll, isSep, h1]
    decide
  · by_cases h2 : c = '-'
    · simp [replAll, isSep, h1, h2]
      decide
    · simp [replAll, isSep, h1, h2]

theorem replAll_of_not_sep {c : Char} (h : isSep c = false) : replAll c = c := by
  simp only [isSep, Bool.or_eq_false_iff, beq_eq_false_iff_ne, ne_eq] at h
  simp [replAll, h.1.1, h.1.2]

theorem not_space_of_not_sep {c : Char} (h : isSep c = false) : pyIsSpace c = false := by
  simp only [isSep, Bool.or_eq_false_iff] at h
  exact h.2

theorem isSep_of_isDigit {c : Char} (h : c.isDigit = true) : isSep c = false := by
  by_contra hs
  rw [Bool.not_eq_false] at hs
  simp only [isSep, pyIsSpace, Bool.or_eq_true, beq_iff_eq] at hs
  have hflat : c = '_' ∨ c = '-' ∨ c = ' ' ∨ c = '\t' ∨ c = '\n' ∨ c = '\x0d' ∨
      c = Char.ofNat 11 ∨ c = Char.ofNat 12 := by tauto
  rcases hflat with h1 | h1 | h1 | h1 | h1 | h1 | h1 | h1 <;> subst h1 <;> simp at h

theorem splitP_ne_nil (p : Char → Bool) (s : List Char) : splitP p s ≠ [] := by
  cases s with
  | nil => simp [splitP]
  | cons c cs =>
    simp only [splitP]
    by_cases h : p c <;> simp [h]

/-- Splitting `t ++ u` when no character of `t` is a separator: `t` is glued
onto the first group of the split of `u`. -/
theorem splitP_append_no_sep (p : Char → Bool) (t u : List Char)
    (ht : ∀ c ∈ t, p c = false) :
    splitP p (t ++ u) = (t ++ (splitP p u).headD []) :: (splitP p u).tail := by
  induction t with
  | nil =>
    simp only [List.nil_append]
    rcases hu : splitP p u with _ | ⟨g, gs⟩
    · exact absurd hu (splitP_ne_nil p u)
    · simp
  | cons c t ih =>
    have hc : p c = false := ht c (List.mem_cons_self c t)
    have ih' := ih (fun d hd => ht d (List.mem_cons_of_mem c hd))
    simp only [List.cons_append, splitP, hc, Bool.false_eq_true, if_false]
    simp [ih']

/-- A trailing remainder: either nothing, or a separator followed by anything. -/
def SepRest (rest : List Char) : Prop :=
  rest = [] ∨ ∃ c r, rest = c :: r ∧ isSep c = true

/-- The heart of the extractor: if a folder name consists of a non-separator
token followed by a separator-headed remainder, the first token of the split
is exactly that token. -/
theorem pySplit_token (t rest : List Char) (htne : t ≠ [])
    (ht : ∀ c ∈ t, isSep c = false) (hrest : SepRest rest) :
    ∃ gs, pySplit ((t ++ rest).map replAll) = t :: gs := by
  have hmap : (t ++ rest).map replAll = t.map replAll ++ rest.map replAll :=
    List.map_append replAll t rest
  have htid : t.map replAll = t := by
    conv_rhs => rw [← List.map_id t]
    apply List.map_congr_left
    intro c hc
    exact replAll_of_not_sep (ht c hc)
  have htsp : ∀ c ∈ t, pyIsSpace c = false := fun c hc => not_space_of_not_sep (ht c hc)
  rcases hrest with hnil | ⟨c, r, hcons, hc⟩
  · subst hnil
    refine ⟨[], ?_⟩
    rw [hmap, htid]
    simp only [List.map_nil, List.append_nil, pySplit]
    have h1 : splitP pyIsSpace t = [t] := by
      simpa [splitP] using splitP_append_no_sep pyIsSpace t [] htsp
    rw [h1]
    simp [htne]
  · subst hcons
    refine ⟨(splitP pyIsSpace (r.map replAll)).filter (fun g => g ≠ []), ?_⟩
    rw [hmap, htid]
    simp only [List.map_cons, pySplit]
    have hcsp : pyIsSpace (replAll c) = true := by rw [pyIsSpace_replAll]; exact hc
    have hsplitc : splitP pyIsSpace (replAll c :: r.map replAll) =
        [] :: splitP pyIsSpace (r.map replAll) := by
      simp [splitP, hcsp]
    have h1 := splitP_append_no_sep pyIsSpace t (replAll c :: r.map replAll) htsp
    rw [hsplitc] at h1
    simp only [List.headD_cons, List.append_nil, List.tail_cons] at h1
    rw [h1]
    simp [htne]

/-- `subID` in terms of `firstToken`. -/
theorem subID_eq_firstToken (pname : String) :
    subID pname = (firstToken pname).map (fun t => String.mk (pyRjust 2 '0' (t.drop 1))) := by
  unfold subID firstToken
  rcases h : pySplit (pyReplaceChar '-' '\t' (pyReplaceChar '_' '\t' pname.toList)) with _ | ⟨t, gs⟩
  · simp
  · simp

/-- The extractor on a well-shaped name: one marker character, then the
digits, then a separator-headed remainder (or nothing). -/
theorem subID_token (m : Char) (ds rest : List Char)
    (hm : isSep m = false) (hds : ∀ c ∈ ds, isSep c = false) (hrest : SepRest rest) :
    subID (String.mk (m :: ds ++ rest)) = some (String.mk (pyRjust 2 '0' ds)) := by
  have htok : ∀ c ∈ m :: ds, isSep c = false := by
    intro c hc
    rcases List.mem_cons.mp hc with h | h
    · exact h ▸ hm
    · exact hds c h
  obtain ⟨gs, hgs⟩ := pySplit_token (m :: ds) rest (by simp) htok hrest
  have hdata : (String.mk (m :: ds ++ rest)).toList = m :: ds ++ rest := rfl
  unfold subID
  rw [hdata, replace_replace_eq_map]
  have : (m :: ds ++ rest) = ((m :: ds) ++ rest) := by simp
  rw [this, hgs]
  simp

theorem filter_splitP_eq_nil_iff (p : Char → Bool) (s : List Char) :
    (splitP p s).filter (fun g => g ≠ []) = [] ↔ ∀ c ∈ s, p c = true := by
  induction s with
  | nil => simp [splitP]
  | cons c cs ih =>
    by_cases h : p c = true
    · have hstep : splitP p (c :: cs) = [] :: splitP p cs := by simp [splitP, h]
      rw [hstep, List.filter_cons, if_neg (by decide), ih]
      simp [List.forall_mem_cons, h]
    · simp [splitP, h]

theorem subID_none_iff_split_nil (pname : String) :
    subID pname = none ↔ pySplit (pname.toList.map replAll) = [] := by
  unfold subID
  rw [replace_replace_eq_map]
  rcases h : pySplit (pname.toList.map replAll) with _ | ⟨t, gs⟩ <;> simp [h]

theorem subID_eq_none_iff (pname : String) :
    subID pname = none ↔ ∀ c ∈ pname.toList, isSep c = true := by
  rw [subID_none_iff_split_nil]
  unfold pySplit
  rw [filter_splitP_eq_nil_iff]
  constructor
  · intro h c hc
    rw [← pyIsSpace_replAll]
    exact h (replAll c) (List.mem_map_of_mem replAll hc)
  · intro h c hc
    rcases List.mem_map.mp hc with ⟨d, hd, rfl⟩
    rw [pyIsSpace_replAll]
    exact h d hd

/-- Claim C1 (amended): for every raw folder name whose first token is a
single marker character followed by decimal digits, optionally followed by a
separator and further text, the extraction returns those digits left-padded
with '0' to width 2 — but the marker prefix must be exactly one character and
the digits must sit inside the first token: 'S1_JohnDoe' yields '01', while
'sub-12' yields 'ub' and 'P-7_retest' yields '00'. -/
theorem C1_subID_single_marker_digits :
    (∀ (m : Char) (ds rest : List Char), isSep m = false →
      (∀ c ∈ ds, c.isDigit = true) → SepRest rest →
      subID (String.mk (m :: ds ++ rest)) = some (String.mk (pyRjust 2 '0' ds))) ∧
    subID "S1_JohnDoe" = some "01" ∧
    subID "sub-12" = some "ub" ∧
    subID "P-7_retest" = some "00" := by
  refine ⟨?_, by rfl, by rfl, by rfl⟩
  intro m ds rest hm hds hrest
  exact subID_token m ds rest hm (fun c hc => isSep_of_isDigit (hds c hc)) hrest

/-- Claim C1 counterexample: the claim as stated says 'sub-12' yields '12'
and 'P-7_retest' yields '07'; the code yields 'ub' and '00'. -/
theorem C1_subID_counterexample :
    subID "sub-12" ≠ some "12" ∧ subID "sub-12" = some "ub" ∧
    subID "P-7_retest" ≠ some "07" := by
  refine ⟨by decide, by rfl, by decide⟩

theorem C1_subID_witness :
    subID (String.mk ('S' :: ['1'] ++ ['_', 'J', 'D'])) =
      some (String.mk (pyRjust 2 '0' ['1'])) :=
  C1_subID_single_marker_digits.1 'S' ['1'] ['_', 'J', 'D'] (by decide) (by decide)
    (Or.inr ⟨'_', ['J', 'D'], rfl, by decide⟩)

/-- Claim C2 (amended): when the first token is a single marker character
followed by one or two decimal digits, the extraction returns a two-character
zero-padded decimal string, and any two such names that differ only in the
marker character, in separator style, or in trailing tokens yield the same
SubjectID; a first token with more than two digits yields a longer string
('S123' yields '123'). -/
theorem C2_subID_two_char_decimal :
    ∀ (m₁ m₂ : Char) (ds rest₁ rest₂ : List Char),
      isSep m₁ = false → isSep m₂ = false →
      (∀ c ∈ ds, c.isDigit = true) → ds ≠ [] → ds.length ≤ 2 →
      SepRest rest₁ → SepRest rest₂ →
      subID (String.mk (m₁ :: ds ++ rest₁)) = subID (String.mk (m₂ :: ds ++ rest₂)) ∧
      subID (String.mk (m₁ :: ds ++ rest₁)) = some (String.mk (pyRjust 2 '0' ds)) ∧
      (pyRjust 2 '0' ds).length = 2 ∧
      (∀ c ∈ pyRjust 2 '0' ds, c.isDigit = true) := by
  intro m₁ m₂ ds rest₁ rest₂ hm₁ hm₂ hds hne hlen h₁ h₂
  have hsep : ∀ c ∈ ds, isSep c = false := fun c hc => isSep_of_isDigit (hds c hc)
  have e₁ := subID_token m₁ ds rest₁ hm₁ hsep h₁
  have e₂ := subID_token m₂ ds rest₂ hm₂ hsep h₂
  refine ⟨e₁.trans e₂.symm, e₁, ?_, ?_⟩
  · have hpos : 0 < ds.length := List.length_pos.mpr hne
    simp only [pyRjust, List.length_append, List.length_replicate]
    omega
  · intro c hc
    rcases List.mem_append.mp hc with h | h
    · rw [List.eq_of_mem_replicate h]
      decide
    · exact hds c h

/-- Claim C2 counterexample: the claim as stated promises a two-character
SubjectID for every accepted folder name, but 'S123' is accepted and yields
the three-character string '123'. -/
theorem C2_subID_counterexample :
    subID "S123" = some "123" ∧ ("123" : String).length ≠ 2 := by
  refine ⟨by rfl, by decide⟩

theorem C2_subID_witness :
    subID (String.mk ('S' :: ['1'] ++ [])) = subID (String.mk ('P' :: ['1'] ++ ['-', 'r'])) ∧
    subID (String.mk ('S' :: ['1'] ++ [])) = some (String.mk (pyRjust 2 '0' ['1'])) ∧
    (pyRjust 2 '0' ['1']).length = 2 ∧
    (∀ c ∈ pyRjust 2 '0' ['1'], c.isDigit = true) :=
  C2_subID_two_char_decimal 'S' 'P' ['1'] [] ['-', 'r'] (by decide) (by decide) (by decide)
    (by decide) (by decide) (Or.inl rfl) (Or.inr ⟨'-', ['r'], rfl, by decide⟩)

/-- Claim C3 (amended): the extraction fails (with a Python IndexError, not a
dedicated InvalidSubjectToken error) exactly when the folder name contains no
token at all, i.e. every character is a separator or whitespace; a
single-character first token does not fail but yields '00'. -/
theorem C3_subID_failure_condition :
    (∀ pname : String, subID pname = none ↔ (∀ c ∈ pname.toList, isSep c = true)) ∧
    subID "S" = some "00" ∧ subID "" = none :=
  ⟨subID_eq_none_iff, by rfl, by rfl⟩

/-- Claim C3 counterexample: the claim as stated says a single-character first
token (no marker before the number) fails; the code instead returns '00'. -/
theorem C3_subID_counterexample :
    subID "S" = some "00" ∧ subID "S" ≠ none := by
  refine ⟨by rfl, by decide⟩

theorem C3_subID_witness : subID "  " = none :=
  (C3_subID_failure_condition.1 "  ").mpr (by decide)

/-- Claim C10: the extraction drops the first character of the first token
unconditionally: any two folder names whose first tokens agree after removing
their first character yield the same SubjectID; 'S1', 'P1' and '11' all
yield '01'. -/
theorem C10_subID_drop_first_unconditional :
    (∀ (p q : String) (tp tq : List Char), firstToken p = some tp →
      firstToken q = some tq → tp.drop 1 = tq.drop 1 → subID p = subID q) ∧
    subID "S1" = some "01" ∧ subID "P1" = some "01" ∧ subID "11" = some "01" := by
  refine ⟨?_, by rfl, by rfl, by rfl⟩
  intro p q tp tq hp hq hdrop
  rw [subID_eq_firstToken, subID_eq_firstToken, hp, hq]
  have ht : tp.tail = tq.tail := by simpa [List.drop_one] using hdrop
  simp [ht]

theorem C10_subID_witness : subID "S1" = subID "P1" :=
  C10_subID_drop_first_unconditional.1 "S1" "P1" ['S', '1'] ['P', '1'] (by rfl) (by rfl)
    (by rfl)

/-! ### File placement planner

Source (both copy loops and the two metadata loops), e.g. the beh loop:
`rawfile = ROOTPATH / '02_Rawdata' / 'sub-{}'.format(subID) / 'beh' / filename`
with `filename = 'sub-{}_task-'.format(subID) + taskname + '_beh.mat'`.
-/

/-- The four destination artifacts the notebook produces per subject. -/
inductive Artifact where
  | behRecording
  | eegRecording
  | channelTable
  | taskDoc
deriving DecidableEq

/-- The modality subdirectory each artifact is placed in; both metadata
files accompany the EEG recording. -/
def artifactDir : Artifact → String
  | .behRecording => "beh"
  | .eegRecording => "eeg"
  | .channelTable => "eeg"
  | .taskDoc => "eeg"

/-- The filename suffix after `sub-<ID>_task-<taskname>_`. -/
def artifactSuffix : Artifact → String
  | .behRecording => "beh.mat"
  | .eegRecording => "eeg.mat"
  | .channelTable => "channels.tsv"
  | .taskDoc => "eeg.json"

/-- `'sub-{}_task-'.format(subID) + taskname + '_<suffix>'`. -/
def artifactFilename (sid taskname : String) (a : Artifact) : String :=
  "sub-" ++ sid ++ "_task-" ++ taskname ++ "_" ++ artifactSuffix a

/-- `pathlib` `/` chaining rendered as a string path. -/
def pathJoin (root : String) (parts : List String) : String :=
  parts.foldl (fun a c => a ++ "/" ++ c) root

/-- The destination path the notebook computes for one artifact. -/
def rawfile (root sid taskname : String) (a : Artifact) : String :=
  pathJoin root ["02_Rawdata", "sub-" ++ sid, artifactDir a, artifactFilename sid taskname a]

/-- Claim C4: the destination path is
`<root>/sub-<ID>/<modality-dir>/sub-<ID>_task-<taskname>_<suffix>` under the
output root `<ROOTPATH>/02_Rawdata`, with suffix `beh.mat`/`eeg.mat` for the
recordings, `channels.tsv` for the channel table and `eeg.json` for the task
document; the path is a pure function of its inputs. -/
theorem C4_rawfile_paths :
    ∀ (root sid T : String),
      (rawfile root sid T Artifact.behRecording =
        ((root ++ "/" ++ "02_Rawdata") ++ "/" ++ ("sub-" ++ sid)) ++ "/" ++ "beh" ++ "/" ++
          ("sub-" ++ sid ++ "_task-" ++ T ++ "_" ++ "beh.mat")) ∧
      (rawfile root sid T Artifact.eegRecording =
        ((root ++ "/" ++ "02_Rawdata") ++ "/" ++ ("sub-" ++ sid)) ++ "/" ++ "eeg" ++ "/" ++
          ("sub-" ++ sid ++ "_task-" ++ T ++ "_" ++ "eeg.mat")) ∧
      (rawfile root sid T Artifact.channelTable =
        ((root ++ "/" ++ "02_Rawdata") ++ "/" ++ ("sub-" ++ sid)) ++ "/" ++ "eeg" ++ "/" ++
          ("sub-" ++ sid ++ "_task-" ++ T ++ "_" ++ "channels.tsv")) ∧
      (rawfile root sid T Artifact.taskDoc =
        ((root ++ "/" ++ "02_Rawdata") ++ "/" ++ ("sub-" ++ sid)) ++ "/" ++ "eeg" ++ "/" ++
          ("sub-" ++ sid ++ "_task-" ++ T ++ "_" ++ "eeg.json")) ∧
      (∀ a : Artifact, rawfile root sid T a = rawfile root sid T a) :=
  fun root sid T => ⟨rfl, rfl, rfl, rfl, fun a => rfl⟩

theorem C4_rawfile_witness :
    rawfile "R" "01" "FeatAttnDec" Artifact.behRecording =
      (("R" ++ "/" ++ "02_Rawdata") ++ "/" ++ ("sub-" ++ "01")) ++ "/" ++ "beh" ++ "/" ++
        ("sub-" ++ "01" ++ "_task-" ++ "FeatAttnDec" ++ "_" ++ "beh.mat") :=
  (C4_rawfile_paths "R" "01" "FeatAttnDec").1

/-! ### Channel-metadata builder

Source: the tsv loop. All twelve DataFrame columns are assigned before
serialization; numeric cells are written in their decimal rendering. For
subject '02' the source assigns a scalar string to `Status_description`,
which pandas broadcasts to all six rows.
-/

/-- One row of the channel table, each cell as the string it is written as. -/
structure ChannelRecord where
  name : String
  type : String
  units : String
  low_cutoff : String
  high_cutoff : String
  reference : String
  group : String
  sampling_frequency : String
  description : String
  notch : String
  status : String
  Status_description : String
deriving DecidableEq, Inhabited, Repr

def nchannels : Nat := 6

def columnNames : List String :=
  ["name", "type", "units", "low_cutoff", "high_cutoff", "reference", "group",
   "sampling_frequency", "description", "notch", "status", "Status_description"]

def nameCol : List String := ["Iz", "Oz", "POz", "O1", "O2", "TRIG"]

def typeCol : List String := ["EEG", "EEG", "EEG", "EEG", "EEG", "TRIG"]

def referenceCol : List String := ["ear", "ear", "ear", "ear", "ear", "n/a"]

/-- The per-subject status column (the `if subID == "01" ... elif ... else`
branches of the source). -/
def statusCol (sid : String) : List String :=
  if sid = "01" then ["GOOD", "BAD", "GOOD", "GOOD", "GOOD", "GOOD"]
  else if sid = "02" then ["OK", "OK", "OK", "OK", "OK", "OK"]
  else ["GOOD", "GOOD", "GOOD", "GOOD", "GOOD", "GOOD"]

/-- The per-subject status-description column. For subject '02' the source
assigns one scalar string, which pandas silently broadcasts to every row;
the broadcast result is what reaches the tsv file. -/
def statusDescriptionCol (sid : String) : List String :=
  if sid = "01" then
    ["n/a", "Channel exessively noisy through, suspect broken electrode",
     "n/a", "n/a", "n/a", "n/a"]
  else if sid = "02" then
    ["Regular artifact throughout, suspect electrical interference",
     "Regular artifact throughout, suspect electrical interference",
     "Regular artifact throughout, suspect electrical interference",
     "Regular artifact throughout, suspect electrical interference",
     "Regular artifact throughout, suspect electrical interference",
     "Regular artifact throughout, suspect electrical interference"]
  else ["n/a", "n/a", "n/a", "n/a", "n/a", "n/a"]

/-- Row `i` of the table for subject `sid`, with the columns the source
assigns identically for every row inlined. -/
def buildRow (sid : String) (i : Nat) : ChannelRecord where
  name := nameCol.getD i "n/a"
  type := typeCol.getD i "n/a"
  units := "μV"
  low_cutoff := "100"
  high_cutoff := "1"
  reference := referenceCol.getD i "n/a"
  group := "1"
  sampling_frequency := "1200"
  description := "n/a"
  notch := "50"
  status := (statusCol sid).getD i "n/a"
  Status_description := (statusDescriptionCol sid).getD i "n/a"

/-- The channel table (`MetaData` DataFrame) for one subject. -/
def MetaData (sid : String) : List ChannelRecord :=
  (List.range nchannels).map (buildRow sid)

/-- The cells of one row in column order. -/
def recordCells (r : ChannelRecord) : List String :=
  [r.name, r.type, r.units, r.low_cutoff, r.high_cutoff, r.reference, r.group,
   r.sampling_frequency, r.description, r.notch, r.status, r.Status_description]

def tsvLine (cells : List String) : String := String.intercalate "\t" cells

/-- `MetaData.to_csv(..., sep='\t', na_rep='n/a', index=False)`: header line,
then one tab-separated line per row, no index column. -/
def to_csv (table : List ChannelRecord) : String :=
  tsvLine columnNames ++ "\n" ++ String.join (table.map (fun r => tsvLine (recordCells r) ++ "\n"))

/-- Claim C5: for every subject the emitted table has the exact twelve-column
tab-separated header in order, no index column (the first cell of each row is
the channel name), exactly six rows in the fixed channel order, the TRIG row
with type 'TRIG' and reference 'n/a', the other five rows sharing identical
defaults (type 'EEG', reference 'ear', and the common units, cutoffs, group,
sampling frequency, description and notch cells), and missing cells written
as the literal 'n/a'. -/
theorem C5_channel_table_shape :
    ∀ sid : String,
      tsvLine columnNames =
        "name\ttype\tunits\tlow_cutoff\thigh_cutoff\treference\tgroup\tsampling_frequency\tdescription\tnotch\tstatus\tStatus_description" ∧
      (MetaData sid).length = 6 ∧
      (MetaData sid).map (fun r => r.name) = ["Iz", "Oz", "POz", "O1", "O2", "TRIG"] ∧
      (MetaData sid).map (fun r => r.type) = ["EEG", "EEG", "EEG", "EEG", "EEG", "TRIG"] ∧
      (MetaData sid).map (fun r => r.reference) = ["ear", "ear", "ear", "ear", "ear", "n/a"] ∧
      (MetaData sid).map (fun r => r.units) = ["μV", "μV", "μV", "μV", "μV", "μV"] ∧
      (MetaData sid).map (fun r => r.low_cutoff) = ["100", "100", "100", "100", "100", "100"] ∧
      (MetaData sid).map (fun r => r.high_cutoff) = ["1", "1", "1", "1", "1", "1"] ∧
      (MetaData sid).map (fun r => r.group) = ["1", "1", "1", "1", "1", "1"] ∧
      (MetaData sid).map (fun r => r.sampling_frequency) =
        ["1200", "1200", "1200", "1200", "1200", "1200"] ∧
      (MetaData sid).map (fun r => r.description) = ["n/a", "n/a", "n/a", "n/a", "n/a", "n/a"] ∧
      (MetaData sid).map (fun r => r.notch) = ["50", "50", "50", "50", "50", "50"] ∧
      (MetaData sid).map (fun r => (recordCells r).length) = [12, 12, 12, 12, 12, 12] ∧
      (MetaData sid).map (fun r => (recordCells r).headD "") =
        ["Iz", "Oz", "POz", "O1", "O2", "TRIG"] ∧
      to_csv (MetaData sid) = tsvLine columnNames ++ "\n" ++
        String.join ((MetaData sid).map (fun r => tsvLine (recordCells r) ++ "\n")) :=
  fun sid =>
    ⟨rfl, rfl, rfl, rfl, rfl, rfl, rfl, rfl, rfl, rfl, rfl, rfl, rfl, rfl, rfl⟩

theorem C5_channel_table_witness :
    (MetaData "03").map (fun r => r.type) = ["EEG", "EEG", "EEG", "EEG", "EEG", "TRIG"] :=
  ((C5_channel_table_shape "03").2.2.2).1

/-- Claim C6: in the table for subject '01' the second row is channel Oz with
status 'BAD' while the other five rows have status 'GOOD'; for every subject
other than '01' and '02' (the subjects with override entries) all six status
cells are 'GOOD' and all six status descriptions are 'n/a'. -/
theorem C6_status_override :
    ((MetaData "01").map (fun r => (r.name, r.status)) =
      [("Iz", "GOOD"), ("Oz", "BAD"), ("POz", "GOOD"), ("O1", "GOOD"), ("O2", "GOOD"),
       ("TRIG", "GOOD")]) ∧
    (∀ sid : String, sid ≠ "01" → sid ≠ "02" →
      (MetaData sid).map (fun r => r.status) =
        ["GOOD", "GOOD", "GOOD", "GOOD", "GOOD", "GOOD"] ∧
      (MetaData sid).map (fun r => r.Status_description) =
        ["n/a", "n/a", "n/a", "n/a", "n/a", "n/a"]) := by
  refine ⟨by rfl, ?_⟩
  intro sid h1 h2
  have hs : statusCol sid = ["GOOD", "GOOD", "GOOD", "GOOD", "GOOD", "GOOD"] := by
    simp only [statusCol, if_neg h1, if_neg h2]
  have hd : statusDescriptionCol sid = ["n/a", "n/a", "n/a", "n/a", "n/a", "n/a"] := by
    simp only [statusDescriptionCol, if_neg h1, if_neg h2]
  constructor
  · calc (MetaData sid).map (fun r => r.status)
        = [(statusCol sid).getD 0 "n/a", (statusCol sid).getD 1 "n/a",
           (statusCol sid).getD 2 "n/a", (statusCol sid).getD 3 "n/a",
           (statusCol sid).getD 4 "n/a", (statusCol sid).getD 5 "n/a"] := rfl
      _ = ["GOOD", "GOOD", "GOOD", "GOOD", "GOOD", "GOOD"] := by rw [hs]; rfl
  · calc (MetaData sid).map (fun r => r.Status_description)
        = [(statusDescriptionCol sid).getD 0 "n/a", (statusDescriptionCol sid).getD 1 "n/a",
           (statusDescriptionCol sid).getD 2 "n/a", (statusDescriptionCol sid).getD 3 "n/a",
           (statusDescriptionCol sid).getD 4 "n/a", (statusDescriptionCol sid).getD 5 "n/a"] := rfl
      _ = ["n/a", "n/a", "n/a", "n/a", "n/a", "n/a"] := by rw [hd]; rfl

theorem C6_status_override_witness :
    (MetaData "07").map (fun r => r.status) = ["GOOD", "GOOD", "GOOD", "GOOD", "GOOD", "GOOD"] ∧
    (MetaData "07").map (fun r => r.Status_description) =
      ["n/a", "n/a", "n/a", "n/a", "n/a", "n/a"] :=
  C6_status_override.2 "07" (by decide) (by decide)

/-- Claim C7 (evaluation at the failing input): for subject '02' the source
assigns a single scalar string to the Status_description column; the build
does not fail but silently broadcasts the scalar to all six rows (and writes
status 'OK' six times), contrary to the required SerializationFailure. -/
theorem C7_scalar_broadcast_eval :
    (MetaData "02").map (fun r => r.Status_description) =
      ["Regular artifact throughout, suspect electrical interference",
       "Regular artifact throughout, suspect electrical interference",
       "Regular artifact throughout, suspect electrical interference",
       "Regular artifact throughout, suspect electrical interference",
       "Regular artifact throughout, suspect electrical interference",
       "Regular artifact throughout, suspect electrical interference"] ∧
    (MetaData "02").map (fun r => r.status) = ["OK", "OK", "OK", "OK", "OK", "OK"] := by
  refine ⟨by rfl, by rfl⟩

/-! ### Task-metadata builder

Source: the json cell. The `metadata` dict is built once, outside the
per-subject loop; `json.dump(metadata, f, indent=2)` then writes the same
document for every subject.
-/

/-- A JSON value as the task document uses them: a string, a number, or a
one-level object of objects with numeric fields (the hardware filters). -/
inductive JsonVal where
  | str : String → JsonVal
  | num : Nat → JsonVal
  | obj : List (String × List (String × Nat)) → JsonVal
deriving DecidableEq, Repr

/-- The task-metadata document, in dict insertion order. Only `TaskName`
depends on an input; every other field is a dataset-wide constant. -/
def metadata (taskname : String) : List (String × JsonVal) :=
  [("SubjectArtefactDescription", JsonVal.str "Strange Regular artifact - visually looks to be at about 0.5Hz, but resistant to filtering. Suspect this is some sort of electrical artifact in the room - testing was not perfomed in a farraday cage. Should not effect FFT based anayses"),
   ("TaskName", JsonVal.str taskname),
   ("SamplingFrequency", JsonVal.num 1200),
   ("PowerLineFrequency", JsonVal.num 50),
   ("SoftwareFilters", JsonVal.str "n/a"),
   ("DCOffsetCorrection", JsonVal.str "n/a"),
   ("EEGReference", JsonVal.str "ear"),
   ("EEGGround", JsonVal.str "Cz"),
   ("HardwareFilters", JsonVal.obj
     [("highpassfilter", [("CutoffFrequency", 1)]),
      ("lowpassfilter", [("CutoffFrequency", 100)])]),
   ("Manufacturer", JsonVal.str "g.tec"),
   ("ManufacturersModelName", JsonVal.str "g.USBamp"),
   ("SoftwareVersions", JsonVal.str "g.tec API functions running in MATLAB 2017a"),
   ("InstitutionName", JsonVal.str "Queensland Brain Institute, The University of Queensland"),
   ("InstitutionAddress", JsonVal.str "Building 79, The University of Queensland, St Lucia, Australia, 4072"),
   ("EEGChannelCount", JsonVal.str "5"),
   ("TriggerChannelCount", JsonVal.str "1"),
   ("RecordingDuration", JsonVal.str "2939.0933"),
   ("RecordingType", JsonVal.str "continuous"),
   ("TaskDescription", JsonVal.str "We set out to collect an EEG dataset to use to train various machine learning algorithms to detect the focus of feature-selective attention. Subjects were cued to attend to attend to either black or white moving dots, and respond to brief periods of coherent motion in the cued colour. The display consisted of either both black and white dots, or only the cued colour in randomly interleaved trials. The field of moving dots in the uncued colour never moved coherently, and should thus not have captured attention. The fields of dots flickered at 6 and 7.5 Hz. Colour and frequency were fully counterbalanced. Each trial consisted of a 1 second cue followed by 15 s of the dot motion stimulus. "),
   ("Instructions", JsonVal.str "Participants were informed of the purpose of the study, and instructed to press the arrow keys corresponding to the direction of any epoch of coherent motion they saw in the cued colour.")]

def jsonQuote (s : String) : String := "\"" ++ s ++ "\""

def indentStr (n : Nat) : String := String.mk (List.replicate n ' ')

/-- Render one JSON value at the document's top nesting level, as
`json.dump(..., indent=2)` does. -/
def renderJsonVal : JsonVal → String
  | JsonVal.str s => jsonQuote s
  | JsonVal.num n => toString n
  | JsonVal.obj kvs =>
    "\x7b\n" ++
    String.intercalate (",\n")
      (kvs.map (fun kv =>
        indentStr 4 ++ jsonQuote kv.1 ++ ": \x7b\n" ++
        String.intercalate (",\n")
          (kv.2.map (fun f => indentStr 6 ++ jsonQuote f.1 ++ ": " ++ toString f.2)) ++
        "\n" ++ indentStr 4 ++ "\x7d")) ++
    "\n" ++ indentStr 2 ++ "\x7d"

/-- `json.dump(doc, f, indent=2)`. -/
def json_dump (doc : List (String × JsonVal)) : String :=
  "\x7b\n" ++
  String.intercalate (",\n")
    (doc.map (fun kv => indentStr 2 ++ jsonQuote kv.1 ++ ": " ++ renderJsonVal kv.2)) ++
  "\n\x7d"

/-- The bytes written to `sub-<sid>_task-<taskname>_eeg.json`. The body does
not consult `sid`: the source builds `metadata` once outside the loop and
dumps the same dict at each subject's path. -/
def taskDocContent (taskname _sid : String) : String :=
  json_dump (metadata taskname)

/-- Claim C8: for every pair of subjects and fixed task name the two emitted
task documents are byte-identical; the document's TaskName field (the second
entry) equals the configured task name and every other field is independent
of the task name and of the subject. -/
theorem C8_task_doc_subject_independent :
    ∀ (T T' s₁ s₂ : String),
      taskDocContent T s₁ = taskDocContent T s₂ ∧
      (metadata T).get? 1 = some ("TaskName", JsonVal.str T) ∧
      (metadata T).eraseIdx 1 = (metadata T').eraseIdx 1 :=
  fun T T' s₁ s₂ => ⟨rfl, rfl, rfl⟩

theorem C8_task_doc_witness :
    taskDocContent "FeatAttnDec" "01" = taskDocContent "FeatAttnDec" "02" :=
  (C8_task_doc_subject_independent "FeatAttnDec" "FeatAttnDec" "01" "02").1

/-! ### Copy executor -/

/-- A filesystem: a map from paths to file contents (byte lists). -/
def FileSystem : Type := String → Option (List Nat)

inductive CopyError where
  | sourceNotFound
deriving DecidableEq, Repr

/-- Modelled from the spec: `shutil.copyfile` is Python standard-library
code, not part of this repository; §4.3 of the spec gives its semantics —
byte-for-byte duplication of the source's content into the destination,
silently overwriting an existing destination, failing only on I/O errors
such as a missing source. -/
def copyfile (fs : FileSystem) (src dst : String) : Except CopyError FileSystem :=
  match fs src with
  | none => Except.error CopyError.sourceNotFound
  | some bytes => Except.ok (fun p => if p = dst then some bytes else fs p)

/-- Claim C9: copying duplicates the source bytes exactly — afterwards the
destination holds precisely the source's content — and an existing
destination is silently overwritten, not an error; every other path is
untouched. -/
theorem C9_copyfile_overwrites :
    ∀ (fs : FileSystem) (src dst : String) (bytes old : List Nat),
      fs src = some bytes → fs dst = some old →
      ∃ fs2, copyfile fs src dst = Except.ok fs2 ∧
        fs2 dst = some bytes ∧ (∀ p, p ≠ dst → fs2 p = fs p) := by
  intro fs src dst bytes old hsrc hdst
  refine ⟨fun p => if p = dst then some bytes else fs p, ?_, ?_, ?_⟩
  · unfold copyfile
    rw [hsrc]
  · simp
  · intro p hp
    simp [hp]

theorem C9_copyfile_witness :
    ∃ fs2, copyfile
        (fun p => if p = "src.mat" then some [1, 2, 3]
          else if p = "dst.mat" then some [9] else none) "src.mat" "dst.mat" =
        Except.ok fs2 ∧
      fs2 "dst.mat" = some [1, 2, 3] ∧
      (∀ p, p ≠ "dst.mat" → fs2 p =
        (fun q => if q = "src.mat" then some [1, 2, 3]
          else if q = "dst.mat" then some [9] else none) p) :=
  C9_copyfile_overwrites
    (fun p => if p = "src.mat" then some [1, 2, 3]
      else if p = "dst.mat" then some [9] else none)
    "src.mat" "dst.mat" [1, 2, 3] [9] rfl rfl

end BIDSDemo
